import Mathlib

/-!
Shallow embedding of `src/session/cookie-store/index.ts`
(`CookieSessionStore.read` and `CookieSessionStore.save`) and proofs about it.

External collaborators (the Iron sealed-cookie codec, the cookie transport,
the OIDC client factory and the clock) are represented by an explicit
environment of functions, and the side effects the store performs (provider
factory calls, `client.refresh` calls, `setCookie` writes) are returned
explicitly as data, so that every theorem about "what calls happen" is a
statement about a computable function.

JavaScript truthiness is modelled faithfully: a missing field is `none`, an
empty string and the number `0` are present but falsy.
-/

set_option autoImplicit false

deriving instance DecidableEq for Except

namespace CookieSessionStore

/-- Modelled from the spec: the `Session` record of `src/session/session.ts`
(declared outside `src/`): "live session: `user` (opaque identity claims),
`idToken`, `accessToken`, `refreshToken` (each an opaque bearer string),
`createdAt` (timestamp), `expiresAt` (timestamp, seconds-since-epoch)".
The class constructor `new Session(user, createdAt)` sets only `user` and
`createdAt`; the token fields and `expiresAt` are absent (`none`). -/
structure Session where
  user : String
  createdAt : Int
  idToken : Option String := none
  accessToken : Option String := none
  refreshToken : Option String := none
  expiresAt : Option Int := none
  deriving Repr, DecidableEq

/-- Modelled from the spec: `CookieSessionStoreSettings` of
`src/session/cookie-store/settings.ts` (declared outside `src/`): the
immutable configuration object with `cookieSecret`, `cookieName`,
`cookiePath`, `cookieLifetime`, `cookieDomain`, `cookieSameSite` and the
boolean flags `storeIdToken`, `storeAccessToken`, `storeRefreshToken`.
The secret itself is abstracted into the environment's seal/unseal
functions, so it is not repeated here. -/
structure CookieSessionStoreSettings where
  cookieName : String
  cookiePath : String
  cookieLifetime : Int
  cookieDomain : String
  cookieSameSite : String
  storeIdToken : Bool
  storeAccessToken : Bool
  storeRefreshToken : Bool
  deriving Repr, DecidableEq

/-- The payload handed to the cookie transport's `setCookie(req, res, {...})`
by `save` (index.ts lines 111-118). -/
structure SetCookieArgs where
  name : String
  value : String
  path : String
  maxAge : Int
  domain : String
  sameSite : String
  deriving Repr, DecidableEq

/-- The observable side effects of one `read`/`save` call: how many times the
OIDC client factory (`this.clientProvider()`) was invoked, how many times
`client.refresh` was invoked, and the `setCookie` writes performed on the
response, in order. -/
structure Effects where
  providerCalls : Nat := 0
  refreshCalls : Nat := 0
  cookieWrites : List SetCookieArgs := []
  deriving Repr, DecidableEq

/-- Modelled from the spec: the external collaborators of the store.
`now` is `Date.now()` in milliseconds. `refreshSession rt` is the live
session `getSessionFromTokenSet(tokenSet)` obtained from the token set that
`client.refresh rt` returns (`getSessionFromTokenSet` lives in
`src/utils/session.ts`, outside `src/`; the spec only says a `TokenSet` is
"convertible into a live Session via an external mapping function", so the
composite is an arbitrary function). `seal`/`unseal` are
`Iron.seal`/`Iron.unseal` with the configured `cookieSecret` and
`Iron.defaults` applied: `unseal` either throws (`Except.error`), or
returns a record that may still be falsy (`none`). -/
structure Env where
  now : Int
  refreshSession : String → Session
  ironSeal : Session → String
  ironUnseal : String → Except String (Option Session)

/-- Errors thrown by `read`/`save`: the two precondition errors (index.ts
lines 27-33 and 78-84) and a propagated `Iron.unseal` failure carrying the
collaborator's message unmodified. -/
inductive StoreError where
  | responseNotAvailable
  | requestNotAvailable
  | unsealError (msg : String)
  deriving Repr, DecidableEq

/-- Modelled from the spec: `parseCookies(request)` of `src/utils/cookies.ts`
(outside `src/`) yields a "mapping of cookie name to raw string value"; a
request is modelled directly as that mapping (an association list), and the
JavaScript indexing `cookies[cookieName]` (yielding `undefined` on a missing
key) is the `Option`-valued lookup. -/
def lookupCookie (cookies : List (String × String)) (name : String) : Option String :=
  (cookies.find? (fun p => p.1 == name)).map Prod.snd

/-- JavaScript truthiness of an optional string field: `undefined` and the
empty string are falsy. -/
def truthyStr : Option String → Bool
  | none => false
  | some s => s != ""

/-- JavaScript truthiness of an optional number field: `undefined` and `0`
are falsy. -/
def truthyInt : Option Int → Bool
  | none => false
  | some i => i != 0

/-- The persisted-session construction of `save` (index.ts lines 88-108):
start from `new Session(user, createdAt)`, copy each token field iff its
store-flag is enabled and the input value is truthy, and copy `expiresAt`
iff at least one store-flag is enabled and the input `expiresAt` is truthy. -/
def persistedSession (settings : CookieSessionStoreSettings) (session : Session) : Session :=
  let s0 : Session := { user := session.user, createdAt := session.createdAt }
  let s1 := if settings.storeIdToken && truthyStr session.idToken then
    { s0 with idToken := session.idToken } else s0
  let s2 := if settings.storeAccessToken && truthyStr session.accessToken then
    { s1 with accessToken := session.accessToken } else s1
  let s3 := if settings.storeRefreshToken && truthyStr session.refreshToken then
    { s2 with refreshToken := session.refreshToken } else s2
  if (settings.storeIdToken || settings.storeAccessToken || settings.storeRefreshToken)
      && truthyInt session.expiresAt then
    { s3 with expiresAt := session.expiresAt }
  else s3

/-- `CookieSessionStore.save` (index.ts lines 77-120). The request is
`none` when the handle is null, otherwise the parsed cookie mapping; the
response handle is `true` when available. On success it returns the
persisted (filtered) session together with the single `setCookie` write of
the sealed value. -/
def save (settings : CookieSessionStoreSettings) (env : Env)
    (req : Option (List (String × String))) (res : Bool) (session : Session) :
    Except StoreError (Session × Effects) :=
  if !res then Except.error StoreError.responseNotAvailable
  else match req with
  | none => Except.error StoreError.requestNotAvailable
  | some _ =>
    let ps := persistedSession settings session
    let encryptedSession := env.ironSeal ps
    let write : SetCookieArgs :=
      { name := settings.cookieName, value := encryptedSession,
        path := settings.cookiePath, maxAge := settings.cookieLifetime,
        domain := settings.cookieDomain, sameSite := settings.cookieSameSite }
    Except.ok (ps, { cookieWrites := [write] })

/-- The staleness test of `read` (index.ts line 54):
`refreshToken && expiresAt && expiresAt * 1000 - 60000 < Date.now()`. -/
def staleCheck (session : Session) (now : Int) : Bool :=
  truthyStr session.refreshToken && truthyInt session.expiresAt &&
    decide (session.expiresAt.getD 0 * 1000 - 60000 < now)

/-- Body of `CookieSessionStore.read` after the precondition checks
(index.ts lines 35-70): cookie lookup (absent or empty cookie is a normal
"no session"), unseal (failure propagates, falsy unsealed value is "no
session"), the staleness test, and on the stale path one provider-factory
call, one `client.refresh` call, the construction of the new session with
the OLD refresh token kept, and delegation to `save`. -/
def readCore (settings : CookieSessionStoreSettings) (env : Env)
    (cookies : List (String × String)) :
    Except StoreError (Option Session × Effects) :=
  match lookupCookie cookies settings.cookieName with
    | none => Except.ok (none, {})
    | some cookie =>
      if cookie = "" then Except.ok (none, {})
      else match env.ironUnseal cookie with
      | Except.error e => Except.error (StoreError.unsealError e)
      | Except.ok none => Except.ok (none, {})
      | Except.ok (some unsealed) =>
        if staleCheck unsealed env.now then
          let refreshToken := unsealed.refreshToken.getD ""
          let session :=
            { env.refreshSession refreshToken with refreshToken := some refreshToken }
          match save settings env (some cookies) true session with
          | Except.error e => Except.error e
          | Except.ok (ps, eff) =>
            Except.ok (some ps,
              { eff with providerCalls := eff.providerCalls + 1,
                         refreshCalls := eff.refreshCalls + 1 })
        else Except.ok (some unsealed, {})

/-- `CookieSessionStore.read` (index.ts lines 26-71): the precondition
checks of lines 27-33 followed by the body `readCore`. -/
def read (settings : CookieSessionStoreSettings) (env : Env)
    (req : Option (List (String × String))) (res : Bool) :
    Except StoreError (Option Session × Effects) :=
  if !res then Except.error StoreError.responseNotAvailable
  else match req with
  | none => Except.error StoreError.requestNotAvailable
  | some cookies => readCore settings env cookies

/-- The `setCookie` payload that `save settings env _ true s` writes
(index.ts lines 111-118), as a function of its inputs. -/
def saveCookieWrite (settings : CookieSessionStoreSettings) (env : Env) (s : Session) :
    SetCookieArgs :=
  { name := settings.cookieName, value := env.ironSeal (persistedSession settings s),
    path := settings.cookiePath, maxAge := settings.cookieLifetime,
    domain := settings.cookieDomain, sameSite := settings.cookieSameSite }

/-- The session `read` builds on its stale path (index.ts lines 61-64): the
live session obtained from the refreshed token set, with `refreshToken`
overridden by the old refresh token from the unsealed record. -/
def refreshedSession (env : Env) (r : Session) : Session :=
  { env.refreshSession (r.refreshToken.getD "") with
    refreshToken := some (r.refreshToken.getD "") }

/-- Shape invariant of every record produced by the persisted-session
construction: a stored `refreshToken` is never the empty string and a
stored `expiresAt` is never `0`, because `save` copies those fields only
when they are truthy. -/
def PersistedShape (r : Session) : Prop :=
  r.refreshToken ≠ some "" ∧ r.expiresAt ≠ some 0

instance (r : Session) : Decidable (PersistedShape r) := by
  unfold PersistedShape
  infer_instance

/-- The persisted record described by the spec's words (§3, §4.2), stated
pointwise: `user` and `createdAt` always; each token field iff its flag is
enabled and the value truthy; `expiresAt` iff some flag is enabled and the
value truthy. Used to compare the sequential construction of `save` against
the spec's description. -/
def specPersistedSession (settings : CookieSessionStoreSettings) (s : Session) : Session :=
  { user := s.user, createdAt := s.createdAt,
    idToken := if settings.storeIdToken && truthyStr s.idToken then s.idToken else none,
    accessToken := if settings.storeAccessToken && truthyStr s.accessToken then s.accessToken else none,
    refreshToken := if settings.storeRefreshToken && truthyStr s.refreshToken then s.refreshToken else none,
    expiresAt := if (settings.storeIdToken || settings.storeAccessToken || settings.storeRefreshToken) && truthyInt s.expiresAt then s.expiresAt else none }

/-! Concrete fixtures used by witnesses and counterexamples. -/

/-- Settings with all three store-flags enabled. -/
def settingsAll : CookieSessionStoreSettings :=
  { cookieName := "a0:session", cookiePath := "/", cookieLifetime := 3600,
    cookieDomain := "", cookieSameSite := "lax",
    storeIdToken := true, storeAccessToken := true, storeRefreshToken := true }

/-- Settings with `storeIdToken` disabled and the other two flags enabled. -/
def settingsNoId : CookieSessionStoreSettings :=
  { settingsAll with storeIdToken := false }

/-- Settings with `storeRefreshToken` disabled and the other two flags enabled. -/
def settingsNoRefresh : CookieSessionStoreSettings :=
  { settingsAll with storeRefreshToken := false }

/-- Settings with all three store-flags disabled. -/
def settingsNoFlags : CookieSessionStoreSettings :=
  { settingsAll with storeIdToken := false, storeAccessToken := false, storeRefreshToken := false }

/-- A live session as produced from a refreshed token set: fresh tokens and a
fresh (rotated) refresh token. -/
def tokenSetSession : Session :=
  { user := "u2", createdAt := 2, idToken := some "newID",
    accessToken := some "newAT", refreshToken := some "newRT",
    expiresAt := some 1800000000 }

/-- A persisted record whose access token expired long before `envRefresh.now`
(seconds 1600000000 vs. milliseconds 1700000000000) and which still carries a
refresh token. -/
def rStale : Session :=
  { user := "u", createdAt := 1, refreshToken := some "RT0",
    expiresAt := some 1600000000 }

/-- A record whose `refreshToken` is present but the empty string (falsy in
JavaScript) and whose `expiresAt` lies far in the past. -/
def rEmptyRT : Session :=
  { user := "u", createdAt := 0, refreshToken := some "",
    expiresAt := some 1 }

/-- A record expiring 30 seconds after `envSkew.now`: inside the 60-second
skew window. -/
def r30 : Session :=
  { user := "u", createdAt := 1, refreshToken := some "RT0",
    expiresAt := some 1700000030 }

/-- A record expiring 90 seconds after `envSkew.now`: outside the 60-second
skew window. -/
def r90 : Session :=
  { user := "u", createdAt := 1, refreshToken := some "RT0",
    expiresAt := some 1700000090 }

/-- An input session whose `expiresAt` is present but `0` (falsy in
JavaScript). -/
def sZeroExp : Session :=
  { user := "u", createdAt := 1, idToken := some "ID", expiresAt := some 0 }

/-- A fully populated live session whose expiry lies beyond the skew window
of `envRound.now`. -/
def sLive : Session :=
  { user := "alice", createdAt := 10, idToken := some "ID",
    accessToken := some "AT", refreshToken := some "RT",
    expiresAt := some 2000000000 }

/-- The persisted subset of `sLive` under `settingsAll`. -/
def psLive : Session := persistedSession settingsAll sLive

/-- The record a stale-path `read` under `settingsNoId` and `envRefresh`
returns: the token-set fields minus the filtered-out `idToken`, with the
old refresh token "RT0". -/
def resC1 : Session :=
  { user := "u2", createdAt := 2, accessToken := some "newAT",
    refreshToken := some "RT0", expiresAt := some 1800000000 }

/-- Environment in which the cookie "C" unseals to the stale record
`rStale` and refreshing yields `tokenSetSession`. -/
def envRefresh : Env :=
  { now := 1700000000000
    refreshSession := fun _ => tokenSetSession
    ironSeal := fun _ => "S"
    ironUnseal := fun c => if c = "C" then Except.ok (some rStale) else Except.error "bad" }

/-- Environment in which the cookie "C" unseals to `rEmptyRT`. -/
def envEmptyRT : Env :=
  { now := 0
    refreshSession := fun _ => tokenSetSession
    ironSeal := fun _ => "S"
    ironUnseal := fun c => if c = "C" then Except.ok (some rEmptyRT) else Except.error "bad" }

/-- Environment for the skew-boundary instances: "C30" unseals to `r30`,
"C90" unseals to `r90`. -/
def envSkew : Env :=
  { now := 1700000000000
    refreshSession := fun _ => tokenSetSession
    ironSeal := fun _ => "S"
    ironUnseal := fun c =>
      if c = "C30" then Except.ok (some r30)
      else if c = "C90" then Except.ok (some r90)
      else Except.error "bad" }

/-- Environment realizing a save/read round trip: sealing yields "SEALED"
and unsealing "SEALED" yields `psLive` back. -/
def envRound : Env :=
  { now := 1700000000000
    refreshSession := fun _ => tokenSetSession
    ironSeal := fun _ => "SEALED"
    ironUnseal := fun c => if c = "SEALED" then Except.ok (some psLive) else Except.error "bad" }

/-- Environment whose unseal rejects every value, as happens when one
character of a validly sealed cookie is mutated. -/
def envErr : Env :=
  { now := 0
    refreshSession := fun _ => tokenSetSession
    ironSeal := fun _ => "S"
    ironUnseal := fun _ => Except.error "integrity" }

/-- Environment whose unseal succeeds but yields a falsy record. -/
def envFalsy : Env :=
  { now := 0
    refreshSession := fun _ => tokenSetSession
    ironSeal := fun _ => "S"
    ironUnseal := fun _ => Except.ok none }

/-! Helper lemmas shared by the claim theorems. -/

/-- With both handles available, `save` succeeds, returns the filtered
persisted session and performs exactly one `setCookie` write of the sealed
record. -/
theorem save_ok (settings : CookieSessionStoreSettings) (env : Env)
    (cookies : List (String × String)) (s : Session) :
    save settings env (some cookies) true s =
      Except.ok (persistedSession settings s, { cookieWrites := [saveCookieWrite settings env s] }) :=
  rfl

/-- The sequential field-copying of `save` computes exactly the record the
spec describes pointwise. -/
theorem persistedSession_eq_spec (settings : CookieSessionStoreSettings) (s : Session) :
    persistedSession settings s = specPersistedSession settings s := by
  dsimp only [persistedSession, specPersistedSession]
  split_ifs <;> rfl

/-- Characterization of the staleness test of index.ts line 54. -/
theorem staleCheck_true_iff (r : Session) (now : Int) :
    staleCheck r now = true ↔
      ∃ rt ea, r.refreshToken = some rt ∧ rt ≠ "" ∧ r.expiresAt = some ea ∧ ea ≠ 0 ∧
        ea * 1000 - 60000 < now := by
  unfold staleCheck truthyStr truthyInt
  cases hr : r.refreshToken <;> cases he : r.expiresAt <;> simp [hr, he]
  tauto

/-- Every record produced by the persisted-session construction satisfies
the shape invariant. -/
theorem persistedSession_shape (settings : CookieSessionStoreSettings) (s : Session) :
    PersistedShape (persistedSession settings s) := by
  rw [persistedSession_eq_spec]
  unfold PersistedShape specPersistedSession
  constructor <;> dsimp only <;> split_ifs <;> simp_all [truthyStr, truthyInt]
  · cases h : s.refreshToken <;> simp_all
  · cases h : s.expiresAt <;> simp_all

/-- Evaluation of `read` once the cookie is found non-empty and unseals to a
record: the result is decided by the staleness test, with the stale path
delegating to `save` on the refreshed session. -/
theorem read_unseal_eq (settings : CookieSessionStoreSettings) (env : Env)
    (cookies : List (String × String)) (c : String) (r : Session)
    (hc : lookupCookie cookies settings.cookieName = some c) (hne : c ≠ "")
    (hu : env.ironUnseal c = Except.ok (some r)) :
    read settings env (some cookies) true =
      (if staleCheck r env.now then
        Except.ok (some (persistedSession settings (refreshedSession env r)),
          { providerCalls := 1, refreshCalls := 1,
            cookieWrites := [saveCookieWrite settings env (refreshedSession env r)] })
      else Except.ok (some r, ({} : Effects))) := by
  show readCore settings env cookies = _
  simp only [readCore, hc]
  rw [if_neg hne, hu]
  by_cases hst : staleCheck r env.now <;>
    simp [hst, save_ok, refreshedSession]

/-! Claim theorems. -/

/-- C3 (amended): for every input session and every configuration of
store-flags, the record `save` constructs, seals and returns contains
`user` and `createdAt` always; contains `idToken`, `accessToken`,
`refreshToken` each iff the corresponding store-flag is enabled and the
input value is truthy; contains `expiresAt` iff at least one of the three
store-flags is enabled and the input `expiresAt` is present and truthy
(non-zero); and contains no other field (the `Session` type has exactly
these six fields). `save` returns this filtered record, not its input, and
writes exactly one cookie carrying the sealed filtered record. -/
theorem save_persists_filtered_record (settings : CookieSessionStoreSettings) (env : Env)
    (cookies : List (String × String)) (s : Session) :
    save settings env (some cookies) true s =
      Except.ok (persistedSession settings s, { cookieWrites := [saveCookieWrite settings env s] }) ∧
    persistedSession settings s = specPersistedSession settings s :=
  ⟨save_ok settings env cookies s, persistedSession_eq_spec settings s⟩

/-- C3 counterexample: with all store-flags enabled and an input whose
`expiresAt` is present but `0` (falsy in JavaScript), the record `save`
returns omits `expiresAt`, contradicting "contains expiresAt if and only if
at least one of the three store-flags is enabled and input expiresAt is
present". -/
theorem save_persists_filtered_record_cex :
    sZeroExp.expiresAt = some 0 ∧ settingsAll.storeIdToken = true ∧
    save settingsAll envRefresh (some []) true sZeroExp =
      Except.ok ({ user := "u", createdAt := 1, idToken := some "ID" },
        { cookieWrites := [saveCookieWrite settingsAll envRefresh sZeroExp] }) ∧
    (persistedSession settingsAll sZeroExp).expiresAt = none := by
  decide

/-- C9: the persisted-record construction of `save` is idempotent: for
every session and fixed settings, filtering an already-filtered session
changes nothing. -/
theorem persistedSession_idempotent (settings : CookieSessionStoreSettings) (s : Session) :
    persistedSession settings (persistedSession settings s) = persistedSession settings s := by
  rw [persistedSession_eq_spec settings s, persistedSession_eq_spec]
  unfold specPersistedSession
  dsimp only
  simp only [Session.mk.injEq]
  refine ⟨trivial, trivial, ?_, ?_, ?_, ?_⟩ <;>
    split_ifs <;> simp_all [truthyStr, truthyInt]

/-- C7: a null response or request handle makes `read` and `save` fail
immediately with the corresponding precondition error; in this embedding an
error result carries no effects, mirroring that the source throws before
parsing any cookie, contacting the provider, or writing to the response. -/
theorem read_save_null_handle_error (settings : CookieSessionStoreSettings) (env : Env)
    (req : Option (List (String × String))) (s : Session) :
    read settings env req false = Except.error StoreError.responseNotAvailable ∧
    read settings env none true = Except.error StoreError.requestNotAvailable ∧
    save settings env req false s = Except.error StoreError.responseNotAvailable ∧
    save settings env none true s = Except.error StoreError.requestNotAvailable :=
  ⟨rfl, rfl, rfl, rfl⟩

/-- C10: both `read` and `save` check the response handle before the
request handle, so with both handles null the raised error is
`responseNotAvailable` (a different constructor of `StoreError` than
`requestNotAvailable`). -/
theorem read_save_both_null_response_error (settings : CookieSessionStoreSettings)
    (env : Env) (s : Session) :
    read settings env none false = Except.error StoreError.responseNotAvailable ∧
    save settings env none false s = Except.error StoreError.responseNotAvailable :=
  ⟨rfl, rfl⟩

/-- C5: a request with no cookie under `cookieName`, or an empty one, makes
`read` return the absent session with no provider-factory call, no refresh
call and no cookie write; the same side-effect-free absent result holds
when unsealing succeeds but yields a falsy record. -/
theorem read_absent_no_effects (settings : CookieSessionStoreSettings) (env : Env)
    (cookies : List (String × String)) :
    (lookupCookie cookies settings.cookieName = none →
      read settings env (some cookies) true = Except.ok (none, ({} : Effects))) ∧
    (lookupCookie cookies settings.cookieName = some "" →
      read settings env (some cookies) true = Except.ok (none, ({} : Effects))) ∧
    (∀ c, lookupCookie cookies settings.cookieName = some c → c ≠ "" →
      env.ironUnseal c = Except.ok none →
      read settings env (some cookies) true = Except.ok (none, ({} : Effects))) := by
  refine ⟨fun h => ?_, fun h => ?_, fun c h hne hu => ?_⟩
  · show readCore settings env cookies = _
    simp [readCore, h]
  · show readCore settings env cookies = _
    simp [readCore, h]
  · show readCore settings env cookies = _
    simp only [readCore, h]
    rw [if_neg hne, hu]

/-- C5 witness: a concrete cookie-less request, a concrete empty-cookie
request, and a concrete falsy-unseal request all read as absent with no
effects. -/
theorem read_absent_no_effects_witness :
    read settingsAll envRefresh (some []) true = Except.ok (none, ({} : Effects)) ∧
    read settingsAll envRefresh (some [("a0:session", "")]) true = Except.ok (none, ({} : Effects)) ∧
    read settingsAll envFalsy (some [("a0:session", "X")]) true = Except.ok (none, ({} : Effects)) :=
  ⟨(read_absent_no_effects settingsAll envRefresh []).1 rfl,
   (read_absent_no_effects settingsAll envRefresh [("a0:session", "")]).2.1 rfl,
   (read_absent_no_effects settingsAll envFalsy [("a0:session", "X")]).2.2 "X" rfl
     (by decide) rfl⟩

/-- C6: when unsealing the cookie value fails (bad signature, malformed
payload, wrong secret), `read` propagates the unseal failure, carrying the
collaborator's message unmodified; it neither downgrades it to the absent
session nor to a corrupted one. -/
theorem read_unseal_error_propagates (settings : CookieSessionStoreSettings) (env : Env)
    (cookies : List (String × String)) (c e : String)
    (hc : lookupCookie cookies settings.cookieName = some c) (hne : c ≠ "")
    (hu : env.ironUnseal c = Except.error e) :
    read settings env (some cookies) true = Except.error (StoreError.unsealError e) := by
  show readCore settings env cookies = _
  simp only [readCore, hc]
  rw [if_neg hne, hu]

/-- C6 witness: a cookie value the codec rejects (as happens when one
character of a validly sealed value is mutated) makes the concrete `read`
fail with the propagated error. -/
theorem read_unseal_error_propagates_witness :
    read settingsAll envErr (some [("a0:session", "MUTATED")]) true =
      Except.error (StoreError.unsealError "integrity") :=
  read_unseal_error_propagates settingsAll envErr [("a0:session", "MUTATED")] "MUTATED"
    "integrity" rfl (by decide) rfl

/-- C4: for a live session with all three store-flags enabled, `save`
followed by `read` of the written cookie under the same codec (the unseal
inverts the seal), with the staleness condition not holding, yields exactly
the persisted subset of the session (`user` and `createdAt`; `idToken`,
`accessToken`, `refreshToken`, `expiresAt` whenever truthy in the input),
and the read performs no provider-factory call, no refresh call and no
cookie write. -/
theorem save_read_roundtrip (settings : CookieSessionStoreSettings) (env : Env)
    (cookies : List (String × String)) (s : Session)
    (hid : settings.storeIdToken = true) (hat : settings.storeAccessToken = true)
    (hrt : settings.storeRefreshToken = true)
    (hcodec : env.ironUnseal (env.ironSeal (persistedSession settings s)) =
      Except.ok (some (persistedSession settings s)))
    (hne : env.ironSeal (persistedSession settings s) ≠ "")
    (hfresh : staleCheck (persistedSession settings s) env.now = false) :
    save settings env (some cookies) true s =
      Except.ok (persistedSession settings s, { cookieWrites := [saveCookieWrite settings env s] }) ∧
    read settings env
        (some [(settings.cookieName, env.ironSeal (persistedSession settings s))]) true =
      Except.ok (some (persistedSession settings s), ({} : Effects)) ∧
    persistedSession settings s =
      { user := s.user, createdAt := s.createdAt,
        idToken := if truthyStr s.idToken then s.idToken else none,
        accessToken := if truthyStr s.accessToken then s.accessToken else none,
        refreshToken := if truthyStr s.refreshToken then s.refreshToken else none,
        expiresAt := if truthyInt s.expiresAt then s.expiresAt else none } := by
  refine ⟨save_ok settings env cookies s, ?_, ?_⟩
  · have hl : lookupCookie [(settings.cookieName, env.ironSeal (persistedSession settings s))]
        settings.cookieName = some (env.ironSeal (persistedSession settings s)) := by
      simp [lookupCookie]
    rw [read_unseal_eq settings env _ _ _ hl hne hcodec]
    simp [hfresh]
  · rw [persistedSession_eq_spec]
    unfold specPersistedSession
    simp [hid, hat, hrt]

/-- C4 witness: the concrete round trip: saving `sLive` writes the sealed
cookie "SEALED", and reading it back returns the persisted subset `psLive`
with zero effects. -/
theorem save_read_roundtrip_witness :
    save settingsAll envRound (some []) true sLive =
      Except.ok (psLive, { cookieWrites := [saveCookieWrite settingsAll envRound sLive] }) ∧
    read settingsAll envRound (some [("a0:session", "SEALED")]) true =
      Except.ok (some psLive, ({} : Effects)) := by
  have h := save_read_roundtrip settingsAll envRound [] sLive rfl rfl rfl (by decide)
    (by decide) (by decide)
  exact ⟨h.1, h.2.1⟩

/-- C2 (amended): for every unsealed session record, `read` triggers a
refresh if and only if `refreshToken` is present and non-empty AND
`expiresAt` is present and non-zero (JavaScript truthiness) AND
`expiresAt * 1000 - 60000 < now`; in the refresh case exactly one
provider-factory call and one refresh call happen, and otherwise the record
is returned unchanged with no calls and no write. -/
theorem read_refresh_iff_truthy (settings : CookieSessionStoreSettings) (env : Env)
    (cookies : List (String × String)) (c : String) (r : Session)
    (hc : lookupCookie cookies settings.cookieName = some c) (hne : c ≠ "")
    (hu : env.ironUnseal c = Except.ok (some r)) :
    (staleCheck r env.now = true ↔
      ∃ rt ea, r.refreshToken = some rt ∧ rt ≠ "" ∧ r.expiresAt = some ea ∧ ea ≠ 0 ∧
        ea * 1000 - 60000 < env.now) ∧
    (staleCheck r env.now = true →
      read settings env (some cookies) true =
        Except.ok (some (persistedSession settings (refreshedSession env r)),
          { providerCalls := 1, refreshCalls := 1,
            cookieWrites := [saveCookieWrite settings env (refreshedSession env r)] })) ∧
    (staleCheck r env.now = false →
      read settings env (some cookies) true = Except.ok (some r, ({} : Effects))) := by
  refine ⟨staleCheck_true_iff r env.now, fun hst => ?_, fun hst => ?_⟩ <;>
    rw [read_unseal_eq settings env cookies c r hc hne hu] <;> simp [hst]

/-- C2 counterexample: the record `rEmptyRT` has `refreshToken` present
(the empty string) and `expiresAt` present with
`expiresAt * 1000 - 60000 < now`, yet `read` performs no refresh and
returns the record unchanged with zero effects. -/
theorem read_refresh_iff_truthy_cex :
    rEmptyRT.refreshToken.isSome = true ∧ rEmptyRT.expiresAt = some 1 ∧
    ((1 : Int) * 1000 - 60000 < envEmptyRT.now) ∧
    envEmptyRT.ironUnseal "C" = Except.ok (some rEmptyRT) ∧
    read settingsAll envEmptyRT (some [("a0:session", "C")]) true =
      Except.ok (some rEmptyRT, ({} : Effects)) := by
  decide

/-- C2 witness: the skew boundary. With `now` = 1700000000000 ms, the record
expiring at second 1700000030 (30 s ahead, inside the 60 s window) is
refreshed with exactly one provider and refresh call, while the record
expiring at second 1700000090 (90 s ahead) is returned unchanged with no
calls. -/
theorem read_refresh_iff_truthy_witness :
    read settingsAll envSkew (some [("a0:session", "C30")]) true =
      Except.ok (some (persistedSession settingsAll (refreshedSession envSkew r30)),
        { providerCalls := 1, refreshCalls := 1,
          cookieWrites := [saveCookieWrite settingsAll envSkew (refreshedSession envSkew r30)] }) ∧
    read settingsAll envSkew (some [("a0:session", "C90")]) true =
      Except.ok (some r90, ({} : Effects)) :=
  ⟨(read_refresh_iff_truthy settingsAll envSkew [("a0:session", "C30")] "C30" r30 rfl
      (by decide) rfl).2.1 (by decide),
   (read_refresh_iff_truthy settingsAll envSkew [("a0:session", "C90")] "C90" r90 rfl
      (by decide) rfl).2.2 (by decide)⟩

/-- C1 (amended): for every persisted-shaped record whose `expiresAt` is at
least 60 seconds in the past relative to `now` and whose `refreshToken` is
present, `read` invokes the provider factory and `client.refresh` exactly
once, builds a session from the refreshed token set whose `refreshToken` is
overridden with the original refresh token from the unsealed cookie while
its other fields come from the new token set, persists that session via
`save` and returns save's persisted (flag-filtered) result; the returned
record's `refreshToken` equals the original whenever `storeRefreshToken` is
enabled. -/
theorem read_expired_refreshes_once_keeps_old_token (settings : CookieSessionStoreSettings)
    (env : Env) (cookies : List (String × String)) (c : String) (r : Session)
    (rt : String) (ea : Int)
    (hc : lookupCookie cookies settings.cookieName = some c) (hne : c ≠ "")
    (hu : env.ironUnseal c = Except.ok (some r)) (hshape : PersistedShape r)
    (hrt : r.refreshToken = some rt) (hea : r.expiresAt = some ea)
    (hpast : ea * 1000 + 60000 ≤ env.now) :
    read settings env (some cookies) true =
      Except.ok (some (persistedSession settings (refreshedSession env r)),
        { providerCalls := 1, refreshCalls := 1,
          cookieWrites := [saveCookieWrite settings env (refreshedSession env r)] }) ∧
    refreshedSession env r = { env.refreshSession rt with refreshToken := some rt } ∧
    save settings env (some cookies) true (refreshedSession env r) =
      Except.ok (persistedSession settings (refreshedSession env r),
        { cookieWrites := [saveCookieWrite settings env (refreshedSession env r)] }) ∧
    (settings.storeRefreshToken = true →
      (persistedSession settings (refreshedSession env r)).refreshToken = some rt) := by
  have hrtne : rt ≠ "" := fun h => hshape.1 (h ▸ hrt)
  have heane : ea ≠ 0 := fun h => hshape.2 (h ▸ hea)
  have hst : staleCheck r env.now = true := by
    rw [staleCheck_true_iff]
    exact ⟨rt, ea, hrt, hrtne, hea, heane, by linarith⟩
  have hgd : r.refreshToken.getD "" = rt := by rw [hrt]; rfl
  refine ⟨?_, ?_, save_ok settings env cookies _, ?_⟩
  · rw [read_unseal_eq settings env cookies c r hc hne hu]
    simp [hst]
  · unfold refreshedSession
    rw [hgd]
  · intro hflag
    rw [persistedSession_eq_spec]
    unfold specPersistedSession refreshedSession
    rw [hgd]
    simp [hflag, truthyStr, hrtne]

/-- C1 counterexample: under `settingsNoId` (a configuration under which
the stale record `rStale` is itself a persistable record), the stale-path
`read` refreshes once but returns a session with no `idToken` even though
the refreshed token set carries `idToken = "newID"`, so the returned
session's non-refreshToken fields do NOT all come from the new token set. -/
theorem read_expired_refreshes_cex :
    persistedSession settingsNoId rStale = rStale ∧
    rStale.refreshToken = some "RT0" ∧ rStale.expiresAt = some 1600000000 ∧
    ((1600000000 : Int) * 1000 + 60000 ≤ envRefresh.now) ∧
    (envRefresh.refreshSession "RT0").idToken = some "newID" ∧
    read settingsNoId envRefresh (some [("a0:session", "C")]) true =
      Except.ok (some resC1,
        { providerCalls := 1, refreshCalls := 1,
          cookieWrites := [saveCookieWrite settingsNoId envRefresh (refreshedSession envRefresh rStale)] }) ∧
    resC1.idToken = none := by
  decide

/-- C1 witness: with all three store-flags enabled, the concrete expired
read refreshes exactly once and the returned persisted session keeps the
original refresh token "RT0". -/
theorem read_expired_refreshes_once_keeps_old_token_witness :
    read settingsAll envRefresh (some [("a0:session", "C")]) true =
      Except.ok (some (persistedSession settingsAll (refreshedSession envRefresh rStale)),
        { providerCalls := 1, refreshCalls := 1,
          cookieWrites := [saveCookieWrite settingsAll envRefresh (refreshedSession envRefresh rStale)] }) ∧
    (persistedSession settingsAll (refreshedSession envRefresh rStale)).refreshToken = some "RT0" := by
  have h := read_expired_refreshes_once_keeps_old_token settingsAll envRefresh
    [("a0:session", "C")] "C" rStale "RT0" 1600000000 rfl (by decide) rfl (by decide) rfl rfl
    (by decide)
  exact ⟨h.1, h.2.2.2 rfl⟩

/-- C8: on the refresh-triggered path `read` returns `save`'s filtered
output: when `storeRefreshToken` is disabled the returned session contains
no `refreshToken` even though the old refresh token was written into the
pre-filter session, and when all three store-flags are disabled it contains
no `expiresAt` either. -/
theorem read_refresh_returns_filtered (settings : CookieSessionStoreSettings) (env : Env)
    (cookies : List (String × String)) (c : String) (r : Session) (rt : String) (ea : Int)
    (hc : lookupCookie cookies settings.cookieName = some c) (hne : c ≠ "")
    (hu : env.ironUnseal c = Except.ok (some r))
    (hrt : r.refreshToken = some rt) (hrtne : rt ≠ "")
    (hea : r.expiresAt = some ea) (heane : ea ≠ 0)
    (hlt : ea * 1000 - 60000 < env.now) :
    (refreshedSession env r).refreshToken = some rt ∧
    read settings env (some cookies) true =
      Except.ok (some (persistedSession settings (refreshedSession env r)),
        { providerCalls := 1, refreshCalls := 1,
          cookieWrites := [saveCookieWrite settings env (refreshedSession env r)] }) ∧
    (settings.storeRefreshToken = false →
      (persistedSession settings (refreshedSession env r)).refreshToken = none) ∧
    (settings.storeIdToken = false → settings.storeAccessToken = false →
      settings.storeRefreshToken = false →
      (persistedSession settings (refreshedSession env r)).expiresAt = none) := by
  have hgd : r.refreshToken.getD "" = rt := by rw [hrt]; rfl
  have hst : staleCheck r env.now = true := by
    rw [staleCheck_true_iff]
    exact ⟨rt, ea, hrt, hrtne, hea, heane, hlt⟩
  refine ⟨?_, ?_, ?_, ?_⟩
  · unfold refreshedSession
    rw [hgd]
  · rw [read_unseal_eq settings env cookies c r hc hne hu]
    simp [hst]
  · intro hflag
    rw [persistedSession_eq_spec]
    unfold specPersistedSession
    simp [hflag]
  · intro h1 h2 h3
    rw [persistedSession_eq_spec]
    unfold specPersistedSession
    simp [h1, h2, h3]

/-- C8 witness: with `storeRefreshToken` disabled, the concrete
refresh-triggered read returns a session with no `refreshToken`. -/
theorem read_refresh_returns_filtered_witness :
    read settingsNoRefresh envRefresh (some [("a0:session", "C")]) true =
      Except.ok (some (persistedSession settingsNoRefresh (refreshedSession envRefresh rStale)),
        { providerCalls := 1, refreshCalls := 1,
          cookieWrites := [saveCookieWrite settingsNoRefresh envRefresh (refreshedSession envRefresh rStale)] }) ∧
    (persistedSession settingsNoRefresh (refreshedSession envRefresh rStale)).refreshToken = none := by
  have h := read_refresh_returns_filtered settingsNoRefresh envRefresh [("a0:session", "C")]
    "C" rStale "RT0" 1600000000 rfl (by decide) rfl rfl (by decide) rfl (by decide) (by decide)
  exact ⟨h.2.1, h.2.2.1 rfl⟩

end CookieSessionStore
